import Mathlib

/-!
Verification development for the session state machine and cumulative
time-tracking engine of the wifi-time-calculator repository.

The embedding is shallow: each MongoDB update issued by
app/mongodb_store.py is modelled as a pure function on a DailyRecord
(the single daily_sessions document the update matches), and the
session-manager and timer-engine logic of app/session_manager.py and
app/timer_engine.py is modelled as functions over that record plus the
in-memory manager state.  Timestamps are integers counting UTC seconds
(the Python code works with datetime values of whole-second resolution
in every scenario considered here, so float total_seconds arithmetic is
exact), and Python int arithmetic is Int arithmetic.
-/

namespace WifiTracker

/-- One document of the daily_sessions collection
(app/mongodb_store.py, field defaults from get_or_create_daily_session).
Nullable fields are Option; timestamps are UTC seconds. -/
structure DailyRecord where
  date : String
  ssid : String
  is_active : Bool
  total_minutes : Int
  sessions_count : Int
  current_session_start : Option Int
  session_start_total_minutes : Option Int
  session_start_paused_minutes : Option Int
  paused_duration_minutes : Int
  paused_at : Option Int
  grace_period_start : Option Int
  grace_period_minutes : Int
  has_network_access : Bool
  completed_4h : Bool
  target_minutes : Int
deriving Repr, DecidableEq

/-- Python round applied to the exact rational s/60: rounding to the
nearest integer, ties to the even integer (used by
MongoDBStore.resume_after_reauth, which stores
round(pause_seconds / 60)). -/
def round_half_even_div60 (s : Int) : Int :=
  let q := s / 60
  let r := s % 60
  if r < 30 then q
  else if 30 < r then q + 1
  else if q % 2 = 0 then q else q + 1

namespace MongoDBStore

/-- get_or_create_daily_session (mongodb_store.py lines 94-138):
upsert keyed by date; on insert the setOnInsert defaults apply, on an
existing document only updated_at (not modelled) changes. -/
def get_or_create_daily_session (existing : Option DailyRecord)
    (date ssid : String) (target_minutes : Int) : DailyRecord :=
  match existing with
  | some r => r
  | none =>
    { date := date
      ssid := ssid
      is_active := false
      total_minutes := 0
      sessions_count := 0
      current_session_start := none
      session_start_total_minutes := some 0
      session_start_paused_minutes := some 0
      paused_duration_minutes := 0
      paused_at := none
      grace_period_start := none
      grace_period_minutes := 2
      has_network_access := true
      completed_4h := false
      target_minutes := target_minutes }

/-- start_session (mongodb_store.py lines 140-187): pipeline update on
the document for the date; snapshots the baselines, clears grace and
pause markers, increments sessions_count. -/
def start_session (r : DailyRecord) (ssid : String) (start_time : Int) :
    DailyRecord :=
  { r with
    ssid := ssid
    is_active := true
    current_session_start := some start_time
    session_start_total_minutes := some r.total_minutes
    session_start_paused_minutes := some r.paused_duration_minutes
    grace_period_start := none
    has_network_access := true
    paused_at := none
    sessions_count := r.sessions_count + 1 }

/-- update_elapsed_time (mongodb_store.py lines 189-215): filter
requires is_active true; returns whether a document was modified. -/
def update_elapsed_time (r : DailyRecord) (current_total_minutes : Int) :
    DailyRecord × Bool :=
  if r.is_active then ({ r with total_minutes := current_total_minutes }, true)
  else (r, false)

/-- end_session (mongodb_store.py lines 217-256): filter requires
is_active true; finalizes the total and clears the session, grace and
pause fields. -/
def end_session (r : DailyRecord) (final_minutes : Int) : DailyRecord :=
  if r.is_active then
    { r with
      is_active := false
      total_minutes := final_minutes
      current_session_start := none
      session_start_total_minutes := none
      session_start_paused_minutes := none
      grace_period_start := none
      paused_at := none
      has_network_access := true }
  else r

/-- start_grace_period (mongodb_store.py lines 262-290): filter requires
is_active true; sets only grace_period_start (and updated_at). -/
def start_grace_period (r : DailyRecord) (grace_start : Int) : DailyRecord :=
  if r.is_active then { r with grace_period_start := some grace_start }
  else r

/-- cancel_grace_period (mongodb_store.py lines 330-353): filter is the
date alone; clears grace_period_start. -/
def cancel_grace_period (r : DailyRecord) : DailyRecord :=
  { r with grace_period_start := none }

/-- pause_for_reauth (mongodb_store.py lines 359-389): filter requires
is_active true; records the pause start and drops network access. -/
def pause_for_reauth (r : DailyRecord) (pause_time : Int) : DailyRecord :=
  if r.is_active then
    { r with has_network_access := false, paused_at := some pause_time }
  else r

/-- resume_after_reauth (mongodb_store.py lines 391-443): finds the
document only when is_active and paused_at is non-null, otherwise
returns None without touching anything; on success it increments
paused_duration_minutes by round(pause_seconds / 60), clears paused_at
and restores has_network_access.  The returned value models the
increment actually applied (None when no pause was active). -/
def resume_after_reauth (r : DailyRecord) (resume_time : Int) :
    DailyRecord × Option Int :=
  match r.paused_at, r.is_active with
  | some p, true =>
    let delta := round_half_even_div60 (resume_time - p)
    ({ r with
        has_network_access := true
        paused_at := none
        paused_duration_minutes := r.paused_duration_minutes + delta },
      some delta)
  | _, _ => (r, none)

/-- mark_completed (mongodb_store.py lines 475-498): filter requires
completed_4h false, so the flag is only ever raised. -/
def mark_completed (r : DailyRecord) : DailyRecord :=
  if r.completed_4h then r else { r with completed_4h := true }

/-- update_connectivity_check (mongodb_store.py lines 445-469): filter
requires is_active true; overwrites has_network_access. -/
def update_connectivity_check (r : DailyRecord) (has_access : Bool) :
    DailyRecord :=
  if r.is_active then { r with has_network_access := has_access } else r

/-- close_stale_sessions (mongodb_store.py lines 525-554): closes the
record when it is active and its date is not today.  Note it clears the
session and pause fields but neither grace_period_start nor
has_network_access nor completed_4h. -/
def close_stale_sessions (r : DailyRecord) (today_date : String) :
    DailyRecord :=
  if r.is_active && r.date ≠ today_date then
    { r with
      is_active := false
      current_session_start := none
      session_start_total_minutes := none
      session_start_paused_minutes := none
      paused_at := none }
  else r

end MongoDBStore

namespace TimerEngine

/-- safe_int_minutes (timer_engine.py lines 175-181) applied to an Int
value: negatives are clamped to zero. -/
def _safe_int_minutes (value : Int) : Int := max 0 value

/-- compute_running_total_minutes (timer_engine.py lines 184-228):
the cumulative daily total, session_start_total_minutes baseline plus
the effective minutes of the current session, where time of a finished
pause window (paused_duration_minutes beyond the
session_start_paused_minutes snapshot) and of an ongoing pause
(paused_at onwards while has_network_access is false) is subtracted
from the elapsed seconds before flooring to minutes. -/
def _compute_running_total_minutes (r : DailyRecord) (now : Int) : Int :=
  match r.current_session_start with
  | none => _safe_int_minutes r.total_minutes
  | some start =>
    let elapsed_seconds := max 0 (now - start)
    let paused_total_minutes := _safe_int_minutes r.paused_duration_minutes
    let session_start_paused :=
      match r.session_start_paused_minutes with
      | none => paused_total_minutes
      | some v => _safe_int_minutes v
    let paused_since_start := max 0 (paused_total_minutes - session_start_paused)
    let ongoing_pause_seconds :=
      if r.has_network_access then 0
      else
        match r.paused_at with
        | some p => max 0 (now - p)
        | none => 0
    let paused_seconds := paused_since_start * 60 + ongoing_pause_seconds
    let effective_session_minutes := (max 0 (elapsed_seconds - paused_seconds)) / 60
    let stored_total := _safe_int_minutes r.total_minutes
    let baseline :=
      match r.session_start_total_minutes with
      | none => max 0 (stored_total - effective_session_minutes)
      | some b => _safe_int_minutes b
    baseline + effective_session_minutes

/-- One iteration of timer_polling_loop (timer_engine.py lines 248-319)
for the record the store returns as the active session, on a tick where
the office-SSID gate passed: skip when inactive or paused, otherwise
persist the recomputed total through update_elapsed_time when it
changed, and mark completion when the (possibly updated) total has
reached the target.  The notification bookkeeping has no record effect
and is not modelled. -/
def timer_tick (r : DailyRecord) (now target_minutes : Int) : DailyRecord :=
  if !r.is_active then r
  else if !r.has_network_access then r
  else
    let total0 := _safe_int_minutes r.total_minutes
    let computed := _compute_running_total_minutes r now
    let r1 :=
      if computed ≠ total0 then (MongoDBStore.update_elapsed_time r computed).1
      else r
    let total := if computed ≠ total0 then computed else total0
    if target_minutes ≤ total ∧ r.completed_4h = false then
      MongoDBStore.mark_completed r1
    else r1

end TimerEngine

namespace SessionManager

/-- SessionState (session_manager.py lines 29-35). -/
inductive SessionState where
  | idle
  | in_office_session
  | in_grace_period
  | paused_for_reauth
  | completed
deriving Repr, DecidableEq

/-- The in-memory state a SessionManager instance keeps besides the
store handle (session_manager.py lines 133-141): the current state, the
current session start and the current date. -/
structure ManagerState where
  state : SessionState
  current_session_start : Option Int
  current_date : Option String
deriving Repr, DecidableEq

/-- The fields of the status dictionary built by get_current_status
(session_manager.py lines 497-550) that the claims refer to. -/
structure StatusSnapshot where
  connected : Bool
  session_active : Bool
  total_minutes : Int
  completed_4h : Bool
  in_grace_period : Bool
  state : SessionState
deriving Repr, DecidableEq

/-- normalize_ssid (session_manager.py lines 437-439 and
wifi_detector.py lines 50-53): strip surrounding whitespace, casefold,
keep alphanumeric characters only.  Spelled out on the character list;
Python casefold, strip and str.isalnum agree with Char.toLower,
Char.isWhitespace and Char.isAlphanum on the ASCII names involved. -/
def _normalize_ssid (value : Option String) : String :=
  let chars := (value.getD "").toList
  let trimmed :=
    ((chars.dropWhile Char.isWhitespace).reverse.dropWhile
      Char.isWhitespace).reverse
  String.mk ((trimmed.map Char.toLower).filter Char.isAlphanum)

/-- calculate_current_total (session_manager.py lines 552-620): the
manager-side running total; identical arithmetic to the timer engine
except that the session_start_paused_minutes snapshot is read without
clamping and that the in-memory session start is used when the stored
one is missing.  The store argument is the document get_daily_status
returns for the current date (None when absent). -/
def _calculate_current_total (m : ManagerState) (store : Option DailyRecord)
    (now : Int) : Int :=
  match m.current_date with
  | none => 0
  | some _ =>
    match store with
    | none => 0
    | some doc =>
      let start_raw :=
        match doc.current_session_start with
        | some s => some s
        | none => m.current_session_start
      match start_raw with
      | none => max 0 doc.total_minutes
      | some start =>
        let elapsed_seconds := max 0 (now - start)
        let paused_total_minutes := max 0 doc.paused_duration_minutes
        let session_start_paused :=
          match doc.session_start_paused_minutes with
          | none => paused_total_minutes
          | some v => v
        let paused_since_start :=
          max 0 (paused_total_minutes - session_start_paused)
        let ongoing_pause_seconds :=
          if doc.has_network_access then 0
          else
            match doc.paused_at with
            | some p => max 0 (now - p)
            | none => 0
        let paused_seconds := paused_since_start * 60 + ongoing_pause_seconds
        let effective_session_minutes :=
          (max 0 (elapsed_seconds - paused_seconds)) / 60
        let stored_total := max 0 doc.total_minutes
        let baseline :=
          match doc.session_start_total_minutes with
          | none => max 0 (stored_total - effective_session_minutes)
          | some b => max 0 b
        baseline + effective_session_minutes

/-- start_session (session_manager.py lines 148-213) on the same-day
path (current_date is None or already equals the date, so the
cross-date force-close branch does not fire): get-or-create the daily
document, run the store start_session snapshot, cancel any grace
period, and set the in-memory state.  Returns the success flag, the new
manager state and the new store content for the date. -/
def start_session (_m : ManagerState) (store : Option DailyRecord)
    (ssid date : String) (start_time target_minutes : Int) :
    Bool × ManagerState × Option DailyRecord :=
  let r0 := MongoDBStore.get_or_create_daily_session store date ssid target_minutes
  let r1 := MongoDBStore.start_session r0 ssid start_time
  let r2 := MongoDBStore.cancel_grace_period r1
  (true,
    { state := SessionState.in_office_session
      current_session_start := some start_time
      current_date := some date },
    some r2)

/-- end_session (session_manager.py lines 215-261): refuses when no
current date is tracked; otherwise finalizes with the override or the
recomputed total and resets the in-memory state. -/
def end_session (m : ManagerState) (store : Option DailyRecord)
    (now : Int) (final_minutes : Option Int) :
    Bool × ManagerState × Option DailyRecord :=
  match m.current_date with
  | none => (false, m, store)
  | some _ =>
    let final :=
      match final_minutes with
      | some f => f
      | none => _calculate_current_total m store now
    let store' :=
      match store with
      | some r => some (MongoDBStore.end_session r final)
      | none => none
    (true,
      { state := SessionState.idle
        current_session_start := none
        current_date := none },
      store')

/-- handle_disconnect (session_manager.py lines 263-297): refuses when
no current date is tracked; otherwise records the grace start in the
store and moves the in-memory state to the grace period.  The spawned
monitor task is a separate event modelled elsewhere. -/
def handle_disconnect (m : ManagerState) (store : Option DailyRecord)
    (grace_start : Int) : Bool × ManagerState × Option DailyRecord :=
  match m.current_date with
  | none => (false, m, store)
  | some _ =>
    let store' :=
      match store with
      | some r => some (MongoDBStore.start_grace_period r grace_start)
      | none => none
    (true, { m with state := SessionState.in_grace_period }, store')

/-- check_network_connectivity (session_manager.py lines 365-405) with
the reachability probe result supplied as has_internet: acts only on
the edges of the has_network_access flag of an active document. -/
def check_network_connectivity (m : ManagerState) (store : Option DailyRecord)
    (has_internet : Bool) (now : Int) :
    Bool × ManagerState × Option DailyRecord :=
  match m.current_date with
  | none => (false, m, store)
  | some _ =>
    match store with
    | none => (false, m, store)
    | some doc =>
      if !doc.is_active then (false, m, store)
      else if doc.has_network_access && !has_internet then
        (true, { m with state := SessionState.paused_for_reauth },
          some (MongoDBStore.pause_for_reauth doc now))
      else if !doc.has_network_access && has_internet then
        (true, { m with state := SessionState.in_office_session },
          some (MongoDBStore.resume_after_reauth doc now).1)
      else (true, m, store)

/-- recover_session (session_manager.py lines 407-495): given the
document stored for today (if any), the currently connected SSID and
the configured office SSID.  An inactive or missing document is a
no-op.  An active document whose SSID fails the normalized comparison
against the current SSID, or a current SSID that differs from the
configured office SSID when that setting is not the placeholder, is
force-ended at its stored total_minutes.  Otherwise in-memory tracking
resumes and the state is reconstructed from the record flags. -/
def recover_session (m : ManagerState) (store : Option DailyRecord)
    (current_ssid : Option String) (configured_ssid : String)
    (date : String) : Bool × ManagerState × Option DailyRecord :=
  match store with
  | none => (false, m, store)
  | some doc =>
    if !doc.is_active then (false, m, store)
    else
      let normalized_current := _normalize_ssid current_ssid
      let normalized_session := _normalize_ssid (some doc.ssid)
      let normalized_configured := _normalize_ssid (some configured_ssid)
      let configured_is_placeholder :=
        normalized_configured = "" ∨ normalized_configured = "yourofficewifiname"
      let same_session_ssid := normalized_current = normalized_session
      let on_configured_office_ssid := normalized_current = normalized_configured
      if ¬same_session_ssid ∨
          (¬configured_is_placeholder ∧ ¬on_configured_office_ssid) then
        (false,
          { state := SessionState.idle
            current_session_start := none
            current_date := none },
          some (MongoDBStore.end_session doc doc.total_minutes))
      else
        let st :=
          if doc.grace_period_start ≠ none then SessionState.in_grace_period
          else if !doc.has_network_access then SessionState.paused_for_reauth
          else if doc.completed_4h then SessionState.completed
          else SessionState.in_office_session
        (true,
          { state := st
            current_session_start := doc.current_session_start
            current_date := some date },
          some doc)

/-- get_current_status (session_manager.py lines 497-550), restricted
to the fields the claims mention: with a current date and a stored
document the flags are read from the document, otherwise an empty
snapshot carrying only the in-memory state is returned. -/
def get_current_status (m : ManagerState) (store : Option DailyRecord) :
    StatusSnapshot :=
  match m.current_date with
  | none =>
    { connected := false, session_active := false, total_minutes := 0
      completed_4h := false, in_grace_period := false, state := m.state }
  | some _ =>
    match store with
    | none =>
      { connected := false, session_active := false, total_minutes := 0
        completed_4h := false, in_grace_period := false, state := m.state }
    | some doc =>
      { connected := doc.is_active
        session_active := doc.is_active
        total_minutes := doc.total_minutes
        completed_4h := doc.completed_4h
        in_grace_period := doc.grace_period_start ≠ none
        state := m.state }

end SessionManager

/-- The store and engine operations that can touch an existing daily
record, used to state record invariants uniformly.  get_or_create acts
on an existing document (the insert case creates a record instead of
transforming one). -/
inductive StoreOp where
  | getOrCreate (date ssid : String) (target : Int)
  | startSession (ssid : String) (t : Int)
  | updateElapsed (total : Int)
  | endSession (final : Int)
  | startGrace (t : Int)
  | cancelGrace
  | pauseForReauth (t : Int)
  | resumeAfterReauth (t : Int)
  | markCompleted
  | updateConnectivity (h : Bool)
  | closeStale (today : String)
  | tick (now target : Int)
deriving Repr, DecidableEq

/-- The effect of a store or engine operation on an existing record. -/
def applyOp : StoreOp → DailyRecord → DailyRecord
  | StoreOp.getOrCreate d s t, r =>
    MongoDBStore.get_or_create_daily_session (some r) d s t
  | StoreOp.startSession s t, r => MongoDBStore.start_session r s t
  | StoreOp.updateElapsed total, r =>
    (MongoDBStore.update_elapsed_time r total).1
  | StoreOp.endSession f, r => MongoDBStore.end_session r f
  | StoreOp.startGrace t, r => MongoDBStore.start_grace_period r t
  | StoreOp.cancelGrace, r => MongoDBStore.cancel_grace_period r
  | StoreOp.pauseForReauth t, r => MongoDBStore.pause_for_reauth r t
  | StoreOp.resumeAfterReauth t, r =>
    (MongoDBStore.resume_after_reauth r t).1
  | StoreOp.markCompleted, r => MongoDBStore.mark_completed r
  | StoreOp.updateConnectivity h, r =>
    MongoDBStore.update_connectivity_check r h
  | StoreOp.closeStale today, r => MongoDBStore.close_stale_sessions r today
  | StoreOp.tick now target, r => TimerEngine.timer_tick r now target

/-- The elapsed-minutes formula exactly as the specification words it
(spec section 4.1): elapsedSeconds = max(0, now - currentSessionStart);
pausedSeconds = max(0, pausedDurationMinutes -
sessionStartPausedMinutes) * 60 plus (now - pausedAt) when
hasNetworkAccess is false and pausedAt is set; the result is
sessionStartTotalMinutes + floor(max(0, elapsedSeconds -
pausedSeconds) / 60).  Stated over the raw field values, for comparison
with the code-side computations. -/
def spec_running_total_minutes (sessionStartTotalMinutes : Int)
    (pausedDurationMinutes : Int) (sessionStartPausedMinutes : Int)
    (currentSessionStart : Int) (pausedAt : Option Int)
    (hasNetworkAccess : Bool) (now : Int) : Int :=
  let elapsedSeconds := max 0 (now - currentSessionStart)
  let pausedSeconds :=
    max 0 (pausedDurationMinutes - sessionStartPausedMinutes) * 60 +
      (match hasNetworkAccess, pausedAt with
       | false, some p => now - p
       | _, _ => 0)
  sessionStartTotalMinutes + (max 0 (elapsedSeconds - pausedSeconds)) / 60

/-! Scenario B of the specification (section 8), played against the
code: a session starts at 09:00:00 (32400 s), the timer polls every
60 seconds while the device is on the office Wi-Fi (the poll loop skips
entirely otherwise, timer_engine.py lines 255-258), Wi-Fi disconnects
at 11:00:00 (39600 s) starting a 2-minute grace period, reconnects at
11:01:00 (39660 s) which re-runs the manager start_session, and status
is queried at 11:05:00 (39900 s) after the tick at that instant.  The
reconnect event is processed before any later timer tick, as in
wifi_detector.process_ssid_change. -/

/-- Run the timer over a list of tick instants with target 250. -/
def c2_run (ts : List Int) (r : DailyRecord) : DailyRecord :=
  ts.foldl (fun s t => TimerEngine.timer_tick s t 250) r

/-- Per-minute tick instants from 09:01:00 through 11:00:00. -/
def c2_tick_times : List Int :=
  (List.range 120).map (fun k => 32460 + 60 * (k : Int))

def c2_m0 : SessionManager.ManagerState :=
  { state := SessionManager.SessionState.idle
    current_session_start := none
    current_date := none }

/-- State after the manager start_session at 09:00:00 on a fresh day. -/
def c2_start1 : Bool × SessionManager.ManagerState × Option DailyRecord :=
  SessionManager.start_session c2_m0 none "OfficeWiFi" "27-02-2026" 32400 250

/-- Store content after the pre-disconnect timer ticks. -/
def c2_store_pre : Option DailyRecord :=
  c2_start1.2.2.map (c2_run c2_tick_times)

/-- Result of handle_disconnect at 11:00:00. -/
def c2_disc : Bool × SessionManager.ManagerState × Option DailyRecord :=
  SessionManager.handle_disconnect c2_start1.2.1 c2_store_pre 39600

/-- Result of the reconnecting start_session at 11:01:00. -/
def c2_start2 : Bool × SessionManager.ManagerState × Option DailyRecord :=
  SessionManager.start_session c2_disc.2.1 c2_disc.2.2 "OfficeWiFi" "27-02-2026"
    39660 250

/-- Store content at the 11:05:00 query, after the post-reconnect ticks. -/
def c2_store_final : Option DailyRecord :=
  c2_start2.2.2.map (c2_run [39720, 39780, 39840, 39900])

/-- The status snapshot the 11:05:00 query returns in the grace run. -/
def c2_status : SessionManager.StatusSnapshot :=
  SessionManager.get_current_status c2_start2.2.1 c2_store_final

/-- The same day with no disconnect at all: ticks run through 11:05:00. -/
def c2_nd_store : Option DailyRecord :=
  c2_start1.2.2.map (c2_run (c2_tick_times ++ [39660, 39720, 39780, 39840, 39900]))

/-- The status snapshot the 11:05:00 query returns with no disconnect. -/
def c2_nd_status : SessionManager.StatusSnapshot :=
  SessionManager.get_current_status c2_start1.2.1 c2_nd_store

/-! A pause/resume trace for the monotonicity of total_minutes: session
starts at second 0, a tick at second 620 persists 10 minutes, internet
access drops at second 620 and returns at second 710 (a 90-second
outage, which resume_after_reauth books as round(1.5) = 2 minutes), and
the next tick at second 710 recomputes. -/

def c4_r1 : DailyRecord :=
  MongoDBStore.start_session
    (MongoDBStore.get_or_create_daily_session none "27-02-2026" "OfficeWiFi" 250)
    "OfficeWiFi" 0

def c4_r2 : DailyRecord := TimerEngine.timer_tick c4_r1 620 250

def c4_r3 : DailyRecord := MongoDBStore.pause_for_reauth c4_r2 620

def c4_r4 : DailyRecord := (MongoDBStore.resume_after_reauth c4_r3 710).1

def c4_r5 : DailyRecord := TimerEngine.timer_tick c4_r4 710 250

/-- An active mid-session record, two hours in, used to observe the
grace-period transition. -/
def c5_rec : DailyRecord :=
  { date := "27-02-2026"
    ssid := "OfficeWiFi"
    is_active := true
    total_minutes := 120
    sessions_count := 1
    current_session_start := some 32400
    session_start_total_minutes := some 0
    session_start_paused_minutes := some 0
    paused_duration_minutes := 0
    paused_at := none
    grace_period_start := none
    grace_period_minutes := 2
    has_network_access := true
    completed_4h := false
    target_minutes := 250 }

def c5_m : SessionManager.ManagerState :=
  { state := SessionManager.SessionState.in_office_session
    current_session_start := some 32400
    current_date := some "27-02-2026" }

/-- handle_disconnect on the active session at 11:00:00. -/
def c5_after : Bool × SessionManager.ManagerState × Option DailyRecord :=
  SessionManager.handle_disconnect c5_m (some c5_rec) 39600

/-- An active record whose stored SSID is the home network, while the
configured office SSID is OfficeNet: the recovery SSID comparison
against the stored SSID succeeds but the configured-SSID guard fails. -/
def c6_rec : DailyRecord :=
  { date := "27-02-2026"
    ssid := "HomeWiFi"
    is_active := true
    total_minutes := 37
    sessions_count := 1
    current_session_start := some 32400
    session_start_total_minutes := some 0
    session_start_paused_minutes := some 0
    paused_duration_minutes := 0
    paused_at := none
    grace_period_start := none
    grace_period_minutes := 2
    has_network_access := true
    completed_4h := false
    target_minutes := 250 }

def c6_m0 : SessionManager.ManagerState :=
  { state := SessionManager.SessionState.idle
    current_session_start := none
    current_date := none }

/-- recover_session while connected to the same SSID the record stores,
with a configured office SSID that differs from it. -/
def c6_result : Bool × SessionManager.ManagerState × Option DailyRecord :=
  SessionManager.recover_session c6_m0 (some c6_rec) (some "HomeWiFi")
    "OfficeNet" "27-02-2026"

/-- A record with an active reauth pause, used as a concrete input for
claims about resume_after_reauth. -/
def c7_rec : DailyRecord :=
  { date := "27-02-2026"
    ssid := "OfficeWiFi"
    is_active := true
    total_minutes := 5
    sessions_count := 1
    current_session_start := some 0
    session_start_total_minutes := some 0
    session_start_paused_minutes := some 0
    paused_duration_minutes := 1
    paused_at := some 100
    grace_period_start := none
    grace_period_minutes := 2
    has_network_access := false
    completed_4h := false
    target_minutes := 250 }

/-- A generic active record used as a concrete input for witnesses. -/
def active_rec : DailyRecord :=
  { date := "27-02-2026"
    ssid := "OfficeWiFi"
    is_active := true
    total_minutes := 80
    sessions_count := 2
    current_session_start := some 32400
    session_start_total_minutes := some 60
    session_start_paused_minutes := some 0
    paused_duration_minutes := 0
    paused_at := none
    grace_period_start := some 39600
    grace_period_minutes := 2
    has_network_access := true
    completed_4h := true
    target_minutes := 250 }

/-- An inactive record used as a concrete input for witnesses. -/
def inactive_rec : DailyRecord :=
  { date := "27-02-2026"
    ssid := "OfficeWiFi"
    is_active := false
    total_minutes := 80
    sessions_count := 2
    current_session_start := none
    session_start_total_minutes := none
    session_start_paused_minutes := none
    paused_duration_minutes := 0
    paused_at := none
    grace_period_start := none
    grace_period_minutes := 2
    has_network_access := true
    completed_4h := false
    target_minutes := 250 }

/-- A record in the middle of a session with an ongoing pause, used as
the concrete input of the C1 witness. -/
def c1_rec : DailyRecord :=
  { date := "27-02-2026"
    ssid := "OfficeWiFi"
    is_active := true
    total_minutes := 10
    sessions_count := 1
    current_session_start := some 0
    session_start_total_minutes := some 10
    session_start_paused_minutes := some 0
    paused_duration_minutes := 3
    paused_at := some 3000
    grace_period_start := none
    grace_period_minutes := 2
    has_network_access := false
    completed_4h := false
    target_minutes := 250 }

/-- The idle manager state (fresh process, nothing tracked). -/
def idle_manager : SessionManager.ManagerState :=
  { state := SessionManager.SessionState.idle
    current_session_start := none
    current_date := none }

/-! Theorems. -/

/-- Helper: the completion flag after one timer tick is the old flag,
or true exactly when the tick ran the accounting (active record with
network access) and the recomputed running total reached the target. -/
theorem timer_tick_completed_4h (r : DailyRecord) (now target : Int) :
    (TimerEngine.timer_tick r now target).completed_4h =
      (r.completed_4h ||
        (r.is_active && r.has_network_access &&
          decide (target ≤ TimerEngine._compute_running_total_minutes r now))) := by
  unfold TimerEngine.timer_tick
  cases hact : r.is_active with
  | false => simp
  | true =>
    cases hnet : r.has_network_access with
    | false => simp
    | true =>
      simp only [Bool.not_true, Bool.false_eq_true, if_false, Bool.true_and]
      by_cases hc :
          TimerEngine._compute_running_total_minutes r now ≠
            TimerEngine._safe_int_minutes r.total_minutes
      · by_cases hT : target ≤ TimerEngine._compute_running_total_minutes r now
        · by_cases hC : r.completed_4h = false
          · simp [hc, hT, hC, MongoDBStore.update_elapsed_time,
              MongoDBStore.mark_completed, hact]
          · simp only [Bool.not_eq_false] at hC
            simp [hc, hT, hC, MongoDBStore.update_elapsed_time, hact]
        · simp [hc, hT, MongoDBStore.update_elapsed_time, hact]
      · simp only [ne_eq, Decidable.not_not] at hc
        by_cases hT : target ≤ TimerEngine._compute_running_total_minutes r now
        all_goals rw [hc] at hT
        · by_cases hC : r.completed_4h = false
          · simp [hc, hT, hC, MongoDBStore.mark_completed]
          · simp only [Bool.not_eq_false] at hC
            simp [hc, hT, hC]
        · simp [hc, hT]

/-- C1: for every daily record with a non-null currentSessionStart and
a non-null sessionStartTotalMinutes baseline (the snapshots are taken
together at session start, and all minute counters the store writes are
non-negative, with pausedAt never in the future), the running total
computed by the engine equals sessionStartTotalMinutes +
floor(max(0, elapsedSeconds - pausedSeconds) / 60) with elapsedSeconds
= max(0, now - currentSessionStart) and pausedSeconds = max(0,
pausedDurationMinutes - sessionStartPausedMinutes) * 60 plus (now -
pausedAt) when hasNetworkAccess is false and pausedAt is set; the
manager-side calculate_current_total agrees, so re-querying mid-session
never double-counts minutes already in the baseline and an ongoing
outage is excluded while still in progress. -/
theorem c1_running_total_matches_spec (r : DailyRecord) (now s b sp : Int)
    (hs : r.current_session_start = some s)
    (hb : r.session_start_total_minutes = some b) (hb0 : 0 ≤ b)
    (hsp : r.session_start_paused_minutes = some sp) (hsp0 : 0 ≤ sp)
    (hpd : 0 ≤ r.paused_duration_minutes)
    (hpa : ∀ p, r.paused_at = some p → p ≤ now) :
    TimerEngine._compute_running_total_minutes r now =
      spec_running_total_minutes b r.paused_duration_minutes sp s r.paused_at
        r.has_network_access now ∧
    ∀ m : SessionManager.ManagerState, m.current_date ≠ none →
      SessionManager._calculate_current_total m (some r) now =
        TimerEngine._compute_running_total_minutes r now := by
  constructor
  · cases hna : r.has_network_access with
    | true =>
      simp [TimerEngine._compute_running_total_minutes,
        spec_running_total_minutes, TimerEngine._safe_int_minutes, hs, hb, hsp,
        hna]
      omega
    | false =>
      cases hp : r.paused_at with
      | none =>
        simp [TimerEngine._compute_running_total_minutes,
          spec_running_total_minutes, TimerEngine._safe_int_minutes, hs, hb,
          hsp, hna, hp]
        omega
      | some p =>
        have hple := hpa p hp
        simp [TimerEngine._compute_running_total_minutes,
          spec_running_total_minutes, TimerEngine._safe_int_minutes, hs, hb,
          hsp, hna, hp]
        omega
  · intro m hm
    cases hd : m.current_date with
    | none => exact absurd hd hm
    | some d =>
      cases hna : r.has_network_access with
      | true =>
        simp [SessionManager._calculate_current_total,
          TimerEngine._compute_running_total_minutes,
          TimerEngine._safe_int_minutes, hd, hs, hb, hsp, hna]
        omega
      | false =>
        cases hp : r.paused_at with
        | none =>
          simp [SessionManager._calculate_current_total,
            TimerEngine._compute_running_total_minutes,
            TimerEngine._safe_int_minutes, hd, hs, hb, hsp, hna, hp]
          omega
        | some p =>
          simp [SessionManager._calculate_current_total,
            TimerEngine._compute_running_total_minutes,
            TimerEngine._safe_int_minutes, hd, hs, hb, hsp, hna, hp]
          omega

/-- C1 witness: the engine total of a concrete mid-session record with
an ongoing outage equals the specification formula. -/
theorem c1_witness :
    TimerEngine._compute_running_total_minutes c1_rec 3600 =
      spec_running_total_minutes 10 3 0 0 (some 3000) false 3600 :=
  (c1_running_total_matches_spec c1_rec 3600 0 10 0 rfl rfl (by decide) rfl
    (by decide) (by decide)
    (fun p hp => by simp only [c1_rec, Option.some.injEq] at hp; omega)).1

/-- C3: the completed_4h flag is a one-way latch: every store and
engine operation preserves a true flag, and a timer tick raises it
exactly when the record is active with network access and the
recomputed running total has reached the target. -/
theorem c3_completed_latch :
    (∀ (op : StoreOp) (r : DailyRecord), r.completed_4h = true →
      (applyOp op r).completed_4h = true) ∧
    (∀ (r : DailyRecord) (now target : Int),
      (TimerEngine.timer_tick r now target).completed_4h =
        (r.completed_4h ||
          (r.is_active && r.has_network_access &&
            decide (target ≤ TimerEngine._compute_running_total_minutes r now)))) := by
  constructor
  · intro op r h
    cases op with
    | getOrCreate d s t =>
      simpa [applyOp, MongoDBStore.get_or_create_daily_session] using h
    | startSession s t => simpa [applyOp, MongoDBStore.start_session] using h
    | updateElapsed total =>
      simp only [applyOp, MongoDBStore.update_elapsed_time]
      split <;> simpa using h
    | endSession f =>
      simp only [applyOp, MongoDBStore.end_session]
      split <;> simpa using h
    | startGrace t =>
      simp only [applyOp, MongoDBStore.start_grace_period]
      split <;> simpa using h
    | cancelGrace => simpa [applyOp, MongoDBStore.cancel_grace_period] using h
    | pauseForReauth t =>
      simp only [applyOp, MongoDBStore.pause_for_reauth]
      split <;> simpa using h
    | resumeAfterReauth t =>
      simp only [applyOp, MongoDBStore.resume_after_reauth]
      cases hp : r.paused_at <;> cases ha : r.is_active <;> simpa using h
    | markCompleted =>
      simp only [applyOp, MongoDBStore.mark_completed]
      split <;> simpa using h
    | updateConnectivity hb =>
      simp only [applyOp, MongoDBStore.update_connectivity_check]
      split <;> simpa using h
    | closeStale today =>
      simp only [applyOp, MongoDBStore.close_stale_sessions]
      split <;> simpa using h
    | tick now target =>
      simp only [applyOp, timer_tick_completed_4h, h, Bool.true_or]
  · exact timer_tick_completed_4h

/-- C3 witness: a concrete operation applied to a concrete record with
the flag already raised keeps the flag raised. -/
theorem c3_witness :
    (applyOp (StoreOp.endSession 90) active_rec).completed_4h = true :=
  c3_completed_latch.1 (StoreOp.endSession 90) active_rec rfl

/-- C4 counterexample: the claimed monotonic non-decrease of the
persisted total_minutes fails on the code.  In the concrete trace a
tick at second 620 stores 10 minutes, a reauth outage of 90 seconds is
then booked by resume_after_reauth as round(1.5) = 2 whole minutes, and
the very next tick recomputes and stores 9 minutes. -/
theorem c4_total_minutes_can_decrease :
    c4_r2.total_minutes = 10 ∧ c4_r5.total_minutes = 9 ∧
    c4_r5.total_minutes < c4_r2.total_minutes :=
  ⟨by decide, by decide, by decide⟩

/-- C4 amended: the running total the engine computes (and persists via
update_elapsed_time whenever the record is active) is monotone in the
query time as long as the record itself is unchanged and no reauth
pause is in progress; only a resume_after_reauth that rounds the outage
up to the next whole minute can push a later stored total below an
earlier one. -/
theorem c4_running_total_monotone (r : DailyRecord) (n1 n2 : Int)
    (h12 : n1 ≤ n2) (hna : r.has_network_access = true) :
    TimerEngine._compute_running_total_minutes r n1 ≤
      TimerEngine._compute_running_total_minutes r n2 := by
  cases hcss : r.current_session_start with
  | none =>
    simp [TimerEngine._compute_running_total_minutes, hcss]
  | some s =>
    cases hsstm : r.session_start_total_minutes <;>
      cases hsspm : r.session_start_paused_minutes <;>
        simp [TimerEngine._compute_running_total_minutes,
          TimerEngine._safe_int_minutes, hcss, hsstm, hsspm, hna] <;>
        omega

/-- C4 witness: monotonicity of the computed total on a concrete
active record at two concrete instants. -/
theorem c4_witness :
    TimerEngine._compute_running_total_minutes active_rec 35000 ≤
      TimerEngine._compute_running_total_minutes active_rec 36000 :=
  c4_running_total_monotone active_rec 35000 36000 (by decide) rfl

/-- C5 counterexample: handle_disconnect on an active session succeeds
and starts the grace window, but the record keeps is_active = true and
a status read during the window reports session_active = true, contrary
to the claimed is_active = false contract. -/
theorem c5_active_during_grace :
    c5_rec.is_active = true ∧ c5_after.1 = true ∧
    c5_after.2.2.map DailyRecord.is_active = some true ∧
    c5_after.2.2.map DailyRecord.grace_period_start = some (some 39600) ∧
    (SessionManager.get_current_status c5_after.2.1 c5_after.2.2).session_active
      = true :=
  ⟨by decide, by decide, by decide, by decide, by decide⟩

/-- C5 amended: after handleDisconnect succeeds on an active session,
the record stays isActive = true for the grace window (only
gracePeriodStart is set), and every status read during the window
reports session_active = true and in_grace_period = true; isActive only
becomes false when grace expiry or a manual end runs end_session. -/
theorem c5_grace_keeps_session_active (m : SessionManager.ManagerState)
    (r : DailyRecord) (d : String) (t : Int)
    (hd : m.current_date = some d) (hact : r.is_active = true) :
    (SessionManager.handle_disconnect m (some r) t).1 = true ∧
    (SessionManager.handle_disconnect m (some r) t).2.2 =
      some { r with grace_period_start := some t } ∧
    (SessionManager.get_current_status
        (SessionManager.handle_disconnect m (some r) t).2.1
        (SessionManager.handle_disconnect m (some r) t).2.2).session_active
      = true ∧
    (SessionManager.get_current_status
        (SessionManager.handle_disconnect m (some r) t).2.1
        (SessionManager.handle_disconnect m (some r) t).2.2).in_grace_period
      = true := by
  refine ⟨?_, ?_, ?_, ?_⟩ <;>
    simp [SessionManager.handle_disconnect, SessionManager.get_current_status,
      MongoDBStore.start_grace_period, hd, hact]

/-- C5 witness: the amended statement on the concrete disconnect
scenario. -/
theorem c5_witness :
    (SessionManager.handle_disconnect c5_m (some c5_rec) 39600).1 = true ∧
    (SessionManager.handle_disconnect c5_m (some c5_rec) 39600).2.2 =
      some { c5_rec with grace_period_start := some 39600 } ∧
    (SessionManager.get_current_status
        (SessionManager.handle_disconnect c5_m (some c5_rec) 39600).2.1
        (SessionManager.handle_disconnect c5_m (some c5_rec) 39600).2.2).session_active
      = true ∧
    (SessionManager.get_current_status
        (SessionManager.handle_disconnect c5_m (some c5_rec) 39600).2.1
        (SessionManager.handle_disconnect c5_m (some c5_rec) 39600).2.2).in_grace_period
      = true :=
  c5_grace_keeps_session_active c5_m c5_rec "27-02-2026" 39600 rfl rfl

/-- C6 counterexample: recover_session force-ends a session and returns
not recovered even though the stored ssid matches the current ssid
under normalization, because the current ssid also fails the comparison
against the configured office ssid (here OfficeNet): the claimed
"otherwise it resumes" is false on the code. -/
theorem c6_matching_ssid_not_recovered :
    c6_rec.is_active = true ∧
    SessionManager._normalize_ssid (some "HomeWiFi") =
      SessionManager._normalize_ssid (some c6_rec.ssid) ∧
    c6_result.1 = false ∧
    c6_result.2.2.map DailyRecord.is_active = some false :=
  ⟨by decide, by decide, by decide, by decide⟩

/-- C6 amended: recover_session, given that the record for today exists
and is active, resumes exactly when the stored ssid matches the current
ssid under normalization AND the current ssid matches the configured
office ssid (unless that setting normalizes to the empty string or the
placeholder yourofficewifiname); on resume it restores in-memory
tracking and reconstructs the state as InGracePeriod if
gracePeriodStart is set, else PausedForReauth without network access,
else Completed if completed4h, else InSession.  In every other case it
force-ends the session at its stored total and returns not
recovered. -/
theorem c6_recover_session_characterization
    (m : SessionManager.ManagerState) (r : DailyRecord)
    (cur : Option String) (conf date : String) (hact : r.is_active = true) :
    ((SessionManager._normalize_ssid cur =
        SessionManager._normalize_ssid (some r.ssid) ∧
      (SessionManager._normalize_ssid (some conf) = "" ∨
        SessionManager._normalize_ssid (some conf) = "yourofficewifiname" ∨
        SessionManager._normalize_ssid cur =
          SessionManager._normalize_ssid (some conf))) →
      SessionManager.recover_session m (some r) cur conf date =
        (true,
          { state :=
              if r.grace_period_start ≠ none then
                SessionManager.SessionState.in_grace_period
              else if !r.has_network_access then
                SessionManager.SessionState.paused_for_reauth
              else if r.completed_4h then SessionManager.SessionState.completed
              else SessionManager.SessionState.in_office_session
            current_session_start := r.current_session_start
            current_date := some date },
          some r)) ∧
    (¬(SessionManager._normalize_ssid cur =
        SessionManager._normalize_ssid (some r.ssid) ∧
      (SessionManager._normalize_ssid (some conf) = "" ∨
        SessionManager._normalize_ssid (some conf) = "yourofficewifiname" ∨
        SessionManager._normalize_ssid cur =
          SessionManager._normalize_ssid (some conf))) →
      SessionManager.recover_session m (some r) cur conf date =
        (false,
          { state := SessionManager.SessionState.idle
            current_session_start := none
            current_date := none },
          some (MongoDBStore.end_session r r.total_minutes))) := by
  constructor
  · intro h
    have hcond :
        ¬(¬(SessionManager._normalize_ssid cur =
              SessionManager._normalize_ssid (some r.ssid)) ∨
          (¬(SessionManager._normalize_ssid (some conf) = "" ∨
              SessionManager._normalize_ssid (some conf) = "yourofficewifiname") ∧
            ¬(SessionManager._normalize_ssid cur =
              SessionManager._normalize_ssid (some conf)))) := by
      tauto
    simp only [SessionManager.recover_session, hact, Bool.not_true,
      Bool.false_eq_true, if_false]
    rw [if_neg hcond]
  · intro h
    have hcond :
        (¬(SessionManager._normalize_ssid cur =
              SessionManager._normalize_ssid (some r.ssid)) ∨
          (¬(SessionManager._normalize_ssid (some conf) = "" ∨
              SessionManager._normalize_ssid (some conf) = "yourofficewifiname") ∧
            ¬(SessionManager._normalize_ssid cur =
              SessionManager._normalize_ssid (some conf)))) := by
      tauto
    simp only [SessionManager.recover_session, hact, Bool.not_true,
      Bool.false_eq_true, if_false]
    rw [if_pos hcond]

/-- C6 witness: recovery on a concrete active record whose ssid matches
both the current and the configured office ssid resumes in-session
tracking. -/
theorem c6_witness :
    SessionManager.recover_session c6_m0 (some active_rec)
        (some "OfficeWiFi") "OfficeWiFi" "27-02-2026" =
      (true,
        { state :=
            if active_rec.grace_period_start ≠ none then
              SessionManager.SessionState.in_grace_period
            else if !active_rec.has_network_access then
              SessionManager.SessionState.paused_for_reauth
            else if active_rec.completed_4h then
              SessionManager.SessionState.completed
            else SessionManager.SessionState.in_office_session
          current_session_start := active_rec.current_session_start
          current_date := some "27-02-2026" },
        some active_rec) :=
  (c6_recover_session_characterization c6_m0 active_rec (some "OfficeWiFi")
    "OfficeWiFi" "27-02-2026" rfl).1 (by constructor <;> decide)

/-- C7: on the false-to-true reachability edge while a pause is
recorded (paused_at non-null on an active record), resume_after_reauth
adds the outage length now - pausedAt, rounded to a whole number of
minutes, to pausedDurationMinutes, clears pausedAt and sets
hasNetworkAccess = true; when no pause is active on an active record it
returns null and changes nothing. -/
theorem c7_resume_after_reauth_delta (r : DailyRecord) (now : Int) :
    (∀ p : Int, r.is_active = true → r.paused_at = some p →
      MongoDBStore.resume_after_reauth r now =
        ({ r with
            has_network_access := true
            paused_at := none
            paused_duration_minutes :=
              r.paused_duration_minutes + round_half_even_div60 (now - p) },
          some (round_half_even_div60 (now - p)))) ∧
    (r.is_active = false ∨ r.paused_at = none →
      MongoDBStore.resume_after_reauth r now = (r, none)) := by
  constructor
  · intro p hact hp
    simp [MongoDBStore.resume_after_reauth, hp, hact]
  · intro h
    cases hp : r.paused_at with
    | none => simp [MongoDBStore.resume_after_reauth, hp]
    | some p =>
      cases hact : r.is_active with
      | false => simp [MongoDBStore.resume_after_reauth, hp, hact]
      | true =>
        rcases h with h | h
        · rw [hact] at h; cases h
        · rw [hp] at h; cases h

/-- C7 witness: resuming a concrete 90-second outage books exactly
round(1.5) = 2 minutes and clears the pause marker. -/
theorem c7_witness :
    MongoDBStore.resume_after_reauth c7_rec 190 =
      ({ c7_rec with
          has_network_access := true
          paused_at := none
          paused_duration_minutes :=
            c7_rec.paused_duration_minutes + round_half_even_div60 (190 - 100) },
        some (round_half_even_div60 (190 - 100))) :=
  (c7_resume_after_reauth_delta c7_rec 190).1 100 rfl rfl

/-- C8: update_elapsed_time persists the new total exactly when the
record is active, returning true; on an inactive record it returns
false and the record is unchanged, so a late timer write can never
resurrect a closed session. -/
theorem c8_update_elapsed_conditional (r : DailyRecord) (total : Int) :
    (r.is_active = true →
      MongoDBStore.update_elapsed_time r total =
        ({ r with total_minutes := total }, true)) ∧
    (r.is_active = false →
      MongoDBStore.update_elapsed_time r total = (r, false)) := by
  constructor
  · intro h; simp [MongoDBStore.update_elapsed_time, h]
  · intro h; simp [MongoDBStore.update_elapsed_time, h]

/-- C8 witness: the conditional update on a concrete inactive record
returns false and leaves the record unchanged. -/
theorem c8_witness :
    MongoDBStore.update_elapsed_time inactive_rec 999 = (inactive_rec, false) :=
  (c8_update_elapsed_conditional inactive_rec 999).2 rfl

/-- C9: the manager end_session invoked when no date context is active
returns failure and performs no store mutation: the daily record, if
one exists, and the manager state are both unchanged. -/
theorem c9_end_session_no_active_date (m : SessionManager.ManagerState)
    (store : Option DailyRecord) (now : Int) (final : Option Int)
    (h : m.current_date = none) :
    SessionManager.end_session m store now final = (false, m, store) := by
  simp [SessionManager.end_session, h]

/-- C9 witness: ending with an idle manager and an existing record for
the day changes nothing and reports failure. -/
theorem c9_witness :
    SessionManager.end_session idle_manager (some inactive_rec) 40000 none =
      (false, idle_manager, some inactive_rec) :=
  c9_end_session_no_active_date idle_manager (some inactive_rec) 40000 none rfl

/-- C10: a successful store end_session (the record was active) leaves
is_active = false, clears current_session_start, both session-start
baselines, grace_period_start and paused_at, and resets
has_network_access to true, so a later start on the same day begins
from a clean pause and grace state. -/
theorem c10_end_session_clears_markers (r : DailyRecord) (final : Int)
    (h : r.is_active = true) :
    (MongoDBStore.end_session r final).is_active = false ∧
    (MongoDBStore.end_session r final).current_session_start = none ∧
    (MongoDBStore.end_session r final).session_start_total_minutes = none ∧
    (MongoDBStore.end_session r final).session_start_paused_minutes = none ∧
    (MongoDBStore.end_session r final).grace_period_start = none ∧
    (MongoDBStore.end_session r final).paused_at = none ∧
    (MongoDBStore.end_session r final).has_network_access = true ∧
    (MongoDBStore.end_session r final).total_minutes = final := by
  refine ⟨?_, ?_, ?_, ?_, ?_, ?_, ?_, ?_⟩ <;> simp [MongoDBStore.end_session, h]

/-- C10 witness: ending a concrete active record clears every session,
grace and pause marker. -/
theorem c10_witness :
    (MongoDBStore.end_session active_rec 124).is_active = false ∧
    (MongoDBStore.end_session active_rec 124).current_session_start = none ∧
    (MongoDBStore.end_session active_rec 124).session_start_total_minutes = none ∧
    (MongoDBStore.end_session active_rec 124).session_start_paused_minutes = none ∧
    (MongoDBStore.end_session active_rec 124).grace_period_start = none ∧
    (MongoDBStore.end_session active_rec 124).paused_at = none ∧
    (MongoDBStore.end_session active_rec 124).has_network_access = true ∧
    (MongoDBStore.end_session active_rec 124).total_minutes = 124 :=
  c10_end_session_clears_markers active_rec 124 rfl

set_option maxRecDepth 100000

/-- C2 counterexample: in the Scenario B trace (active since 09:00:00,
per-minute timer ticks while on office Wi-Fi, disconnect at 11:00:00
with a 2-minute grace window, reconnect via start_session at 11:01:00,
query at 11:05:00) the code yields totalMinutes = 124, not the claimed
125, and strictly less than the 125 of the identical run with no
disconnect: the reconnecting start_session re-baselines at the total
persisted before the disconnect, so the disconnect gap is lost. -/
theorem c2_grace_reconnect_drops_gap :
    c2_status.total_minutes = 124 ∧ c2_nd_status.total_minutes = 125 ∧
    c2_status.total_minutes < c2_nd_status.total_minutes :=
  ⟨by decide, by decide, by decide⟩

/-- C2 amended: a disconnect followed by a reconnect strictly before
gracePeriodMinutes elapse keeps the daily record active and continuous
and never loses credit already persisted: the reconnecting
start_session re-activates the record, snapshots the stored total as
the new baseline and clears the grace marker, so in the Scenario B
trace the 11:05:00 query yields 124 = the 120 minutes persisted by the
last pre-disconnect tick plus 4 minutes since the 11:01:00 reconnect
(one minute below the no-disconnect run, because the disconnect gap
between the last persisted update and the reconnect is not credited). -/
theorem c2_grace_reconnect_rebaselines :
    c2_status.total_minutes = 124 ∧
    c2_nd_status.total_minutes = 125 ∧
    c2_store_pre.map DailyRecord.total_minutes = some 120 ∧
    c2_start2.2.2.map DailyRecord.is_active = some true ∧
    c2_start2.2.2.map DailyRecord.session_start_total_minutes =
      some (some 120) ∧
    c2_start2.2.2.map DailyRecord.grace_period_start = some none ∧
    ∀ (r : DailyRecord) (ssid : String) (t : Int),
      (MongoDBStore.start_session r ssid t).is_active = true ∧
      (MongoDBStore.start_session r ssid t).session_start_total_minutes =
        some r.total_minutes ∧
      (MongoDBStore.start_session r ssid t).total_minutes = r.total_minutes ∧
      (MongoDBStore.start_session r ssid t).grace_period_start = none :=
  ⟨by decide, by decide, by decide, by decide, by decide, by decide,
    fun _ _ _ => ⟨rfl, rfl, rfl, rfl⟩⟩

end WifiTracker
